import Mathlib

/-!
Shallow embedding of the `moncash-sdk` client library (latest revision:
`MoncashSDK` with token caching, bounded 401 retry and request timeout).

Modelling conventions:
* JavaScript `undefined`-able fields become `Option` values.
* Instants (`Date.now()`, `expiresAt`) are integers in milliseconds; the
  current time is carried in the state and does not advance during one
  logical operation (the retry loop is instantaneous in the model).
* The network is modelled by two scripts carried in the state: the
  responses the token endpoint will give to successive token-exchange
  calls, and the outcomes of successive `fetch` calls to the business
  endpoint (an HTTP response, an `AbortError` raised by the timeout
  controller, or another transport failure).
* Thrown `MonCashError`-family exceptions become `Except.error` values
  carrying the class name, message, optional `statusCode` and optional
  raw `response` body, exactly as the constructors set them.
-/

namespace Moncash

/-- Parsed JSON body of a business-endpoint response, as far as the SDK
inspects it: `responseData?.error?.message` plus opaque remaining content. -/
structure RespBody where
  errorMessage : Option String
  raw : String
deriving DecidableEq, Repr

/-- Error value: class `name`, `message`, optional `statusCode`, optional raw
`response`, mirroring the `MonCashError` hierarchy of the source. -/
structure MErr where
  name : String
  message : String
  statusCode : Option Nat
  response : Option RespBody
deriving DecidableEq, Repr

/-- `new OrderNotFoundError(orderId)`: message `Order with ID {orderId} not
found`, status 404, no response payload. -/
def orderNotFoundErr (orderId : String) : MErr :=
  ⟨"OrderNotFoundError", "Order with ID " ++ orderId ++ " not found", some 404, none⟩

/-- `new PaymentNotFoundError(transactionId)`: message `Payment with ID
{transactionId} not found`, status 404, no response payload. -/
def paymentNotFoundErr (transactionId : String) : MErr :=
  ⟨"PaymentNotFoundError", "Payment with ID " ++ transactionId ++ " not found", some 404, none⟩

/-- `new RequestTimeoutError()`: message `Request timed out`, status 408. -/
def requestTimeoutErr : MErr :=
  ⟨"RequestTimeoutError", "Request timed out", some 408, none⟩

/-- The `TokenData` interface: `accessToken` is whatever `data.access_token`
held (possibly `undefined`, hence `Option`), `expiresAt` an instant in ms. -/
structure TokenData where
  accessToken : Option String
  expiresAt : Int
deriving DecidableEq, Repr

/-- One response of the token endpoint to a token-exchange call: HTTP status,
the JSON fields `access_token` and `expires_in`, and (for error statuses)
the best-effort-parsed error body. -/
structure TokenResp where
  status : Nat
  access_token : Option String
  expires_in : Int
  errBody : Option RespBody
deriving DecidableEq, Repr

/-- Outcome of one `fetch` to the business endpoint: an HTTP response with a
best-effort-parsed JSON body (`response.json().catch(() => null)` gives
`Option RespBody`), an abort raised by the timeout controller, or another
transport-level failure. -/
inductive FetchOutcome where
  | response (status : Nat) (body : Option RespBody)
  | abort
  | failure (msg : String)
deriving DecidableEq, Repr

/-- Instance state of the SDK plus the environment scripts: the mutable token
slot `tokenData`, the scripted token-endpoint responses, the scripted fetch
outcomes, and the current clock value in ms. -/
structure SdkState where
  tokenData : Option TokenData
  tokenScript : List TokenResp
  fetchScript : List FetchOutcome
  now : Int
deriving DecidableEq, Repr

/-- `response.ok`: status in the 2xx range. -/
def respOk (status : Nat) : Bool :=
  decide (200 ≤ status) && decide (status < 300)

/-- The `Endpoints` enum of the source. -/
def CREATE_PAYMENT : String := "/v1/CreatePayment"

/-- Endpoint `/v1/RetrieveTransactionPayment`. -/
def RETRIEVE_TRANSACTION : String := "/v1/RetrieveTransactionPayment"

/-- Endpoint `/v1/RetrieveOrderPayment`. -/
def RETRIEVE_ORDER : String := "/v1/RetrieveOrderPayment"

/-- Endpoint `/v1/TransFer`. -/
def TRANSFER : String := "/v1/TransFer"

/-- `isTokenValid()`: false when the slot is empty, else
`Date.now() < expiresAt - 10000` (10-second buffer before expiry). -/
def isTokenValid (st : SdkState) : Bool :=
  match st.tokenData with
  | none => false
  | some td => decide (st.now < td.expiresAt - 10000)

/-- The token-exchange call inside `getAccessToken` (cache miss path): consume
the next scripted token response; on a non-2xx status throw
`MonCashError("Authentication failed", status, body)`; on success install
`{ accessToken := access_token, expiresAt := now + max(expires_in, 30) * 1000 }`
into the cache and return the (possibly undefined) `access_token` verbatim.
An exhausted script models a network failure before any response, wrapped as
`MonCashError("Failed to get access token")` with no status code. -/
def acquireToken (st : SdkState) : SdkState × Except MErr (Option String) :=
  match st.tokenScript with
  | [] => (st, .error ⟨"MonCashError", "Failed to get access token", none, none⟩)
  | tr :: rest =>
    if respOk tr.status then
      let td : TokenData := ⟨tr.access_token, st.now + max tr.expires_in 30 * 1000⟩
      ({ st with tokenData := some td, tokenScript := rest }, .ok tr.access_token)
    else
      ({ st with tokenScript := rest },
        .error ⟨"MonCashError", "Authentication failed", some tr.status, tr.errBody⟩)

/-- `getAccessToken()`: return the cached token when `isTokenValid()`, else
perform the token-exchange call. -/
def getAccessToken (st : SdkState) : SdkState × Except MErr (Option String) :=
  if isTokenValid st then
    (st, .ok (Option.bind st.tokenData TokenData.accessToken))
  else
    acquireToken st

/-- Request body, as far as the error classifier inspects it: the optional
fields the operation methods put into `data`. -/
structure ReqData where
  amount : Option Int
  orderId : Option String
  transactionId : Option String
  receiver : Option String
  description : Option String
deriving DecidableEq, Repr

/-- A JavaScript template-literal read of a possibly-`undefined` string field
(`(data as { orderId: string }).orderId`). -/
def castField (s : Option String) : String :=
  match s with
  | some s => s
  | none => "undefined"

/-- JavaScript `a || b` on an optional string: the fallback is used when the
value is absent or the empty string (falsy). -/
def jsOr (s : Option String) (d : String) : String :=
  match s with
  | some s => if s = "" then d else s
  | none => d

/-- `makeRequest(endpoint, method, data, retryCount)`. One attempt:
obtain a token (a thrown 401 from the token endpoint reaches the catch
clause, which clears the slot and retries while `retryCount < maxRetries`);
consume the next fetch outcome; an `AbortError` becomes
`RequestTimeoutError`; another transport failure is wrapped as a generic
`MonCashError` without status; on a response, a 2xx returns the parsed body,
a 404 on the two lookup endpoints throws the dedicated not-found errors with
the identifier taken from `data`, a 401 below the retry ceiling clears the
token slot and re-enters with `retryCount + 1`, and anything else throws
`MonCashError(responseData?.error?.message || "Request failed with status
{status}", status, responseData)`. -/
def makeRequest (maxRetries : Nat) (endpoint method : String) (data : ReqData)
    (st : SdkState) (retryCount : Nat) : SdkState × Except MErr (Option RespBody) :=
  match getAccessToken st with
  | (st1, .error e) =>
    if h : e.statusCode = some 401 ∧ retryCount < maxRetries then
      makeRequest maxRetries endpoint method data
        { st1 with tokenData := none } (retryCount + 1)
    else
      (st1, .error e)
  | (st1, .ok _accessToken) =>
    match st1.fetchScript with
    | [] => (st1, .error ⟨"MonCashError", "Unknown error occurred", none, none⟩)
    | outcome :: rest =>
      let st2 := { st1 with fetchScript := rest }
      match outcome with
      | .abort => (st2, .error requestTimeoutErr)
      | .failure msg => (st2, .error ⟨"MonCashError", msg, none, none⟩)
      | .response status body =>
        if respOk status then
          (st2, .ok body)
        else if status = 404 ∧ endpoint = RETRIEVE_ORDER then
          (st2, .error (orderNotFoundErr (castField data.orderId)))
        else if status = 404 ∧ endpoint = RETRIEVE_TRANSACTION then
          (st2, .error (paymentNotFoundErr (castField data.transactionId)))
        else if h : status = 401 ∧ retryCount < maxRetries then
          makeRequest maxRetries endpoint method data
            { st2 with tokenData := none } (retryCount + 1)
        else
          (st2, .error ⟨"MonCashError",
            jsOr (Option.bind body RespBody.errorMessage)
              ("Request failed with status " ++ toString status),
            some status, body⟩)
termination_by maxRetries - retryCount
decreasing_by
  all_goals omega

/-- JavaScript `String.prototype.trim()`: strip leading and trailing
whitespace (modelled over the string's characters with `Char.isWhitespace`,
which covers the space, tab and newline characters the claims exercise). -/
def jsTrim (s : String) : String :=
  String.mk (List.reverse (List.dropWhile Char.isWhitespace
    (List.reverse (List.dropWhile Char.isWhitespace s.data))))

/-- The validation error thrown by the operation methods:
`new MonCashError(message)` — no status code, no response payload. -/
def validationErr (message : String) : MErr :=
  ⟨"MonCashError", message, none, none⟩

/-- `createPayment(amount, orderId)`: reject a non-positive amount, then an
order id whose `trim()` is empty, else dispatch
`POST /v1/CreatePayment { amount, orderId }`. The model returns the raw
dispatcher result; the shaping of the 2xx body into
`{ redirectUrl, paymentToken }` is outside the dispatch pipeline. -/
def createPayment (maxRetries : Nat) (amount : Int) (orderId : String)
    (st : SdkState) : SdkState × Except MErr (Option RespBody) :=
  if amount ≤ 0 then (st, .error (validationErr "Amount must be greater than 0"))
  else if jsTrim orderId = "" then (st, .error (validationErr "OrderId is required"))
  else makeRequest maxRetries CREATE_PAYMENT "POST"
    ⟨some amount, some orderId, none, none, none⟩ st 0

/-- `getTransaction(transactionId)`: reject an id whose `trim()` is empty,
else dispatch `POST /v1/RetrieveTransactionPayment { transactionId }`. -/
def getTransaction (maxRetries : Nat) (transactionId : String)
    (st : SdkState) : SdkState × Except MErr (Option RespBody) :=
  if jsTrim transactionId = "" then
    (st, .error (validationErr "TransactionId is required"))
  else makeRequest maxRetries RETRIEVE_TRANSACTION "POST"
    ⟨none, none, some transactionId, none, none⟩ st 0

/-- `getOrder(orderId)`: reject an id whose `trim()` is empty, else dispatch
`POST /v1/RetrieveOrderPayment { orderId }`. -/
def getOrder (maxRetries : Nat) (orderId : String)
    (st : SdkState) : SdkState × Except MErr (Option RespBody) :=
  if jsTrim orderId = "" then (st, .error (validationErr "OrderId is required"))
  else makeRequest maxRetries RETRIEVE_ORDER "POST"
    ⟨none, some orderId, none, none, none⟩ st 0

/-- `transFer(amount, receiver, description)`: reject a non-positive amount,
then a receiver whose `trim()` is empty; the description is not validated at
all and is placed into the request body verbatim. -/
def transFer (maxRetries : Nat) (amount : Int) (receiver description : String)
    (st : SdkState) : SdkState × Except MErr (Option RespBody) :=
  if amount ≤ 0 then (st, .error (validationErr "Amount must be greater than 0"))
  else if jsTrim receiver = "" then (st, .error (validationErr "Receiver is required"))
  else makeRequest maxRetries TRANSFER "POST"
    ⟨some amount, none, none, some receiver, some description⟩ st 0

/-!
Credential encoding (`getAccessToken`, latest revision):
`Buffer.from(clientId + ":" + clientSecret).toString("base64")`.
Strings are modelled as lists of Unicode code points; `Buffer.from` encodes
them to UTF-8 bytes; `toString("base64")` is standard base64 with the usual
alphabet and `=` padding.
-/

/-- The standard base64 alphabet, as used by `Buffer.toString("base64")`. -/
def b64Chars : List Char :=
  ['A', 'B', 'C', 'D', 'E', 'F', 'G', 'H', 'I', 'J', 'K', 'L', 'M',
   'N', 'O', 'P', 'Q', 'R', 'S', 'T', 'U', 'V', 'W', 'X', 'Y', 'Z',
   'a', 'b', 'c', 'd', 'e', 'f', 'g', 'h', 'i', 'j', 'k', 'l', 'm',
   'n', 'o', 'p', 'q', 'r', 's', 't', 'u', 'v', 'w', 'x', 'y', 'z',
   '0', '1', '2', '3', '4', '5', '6', '7', '8', '9', '+', '/']

/-- The alphabet character for a sextet value. -/
def sextetChar (n : Nat) : Char := b64Chars.getD n '='

/-- The sextet value of an alphabet character. -/
def b64Index (c : Char) : Nat := b64Chars.findIdx (fun x => x == c)

/-- Base64 encoding of a byte list: three bytes to four characters, with `=`
padding for a trailing group of one or two bytes. -/
def b64encode : List Nat → List Char
  | [] => []
  | [a] => [sextetChar (a / 4), sextetChar (a % 4 * 16), '=', '=']
  | [a, b] => [sextetChar (a / 4), sextetChar (a % 4 * 16 + b / 16),
               sextetChar (b % 16 * 4), '=']
  | a :: b :: c :: rest =>
    sextetChar (a / 4) :: sextetChar (a % 4 * 16 + b / 16) ::
    sextetChar (b % 16 * 4 + c / 64) :: sextetChar (c % 64) :: b64encode rest

/-- Base64 decoding: four characters to three bytes, with `=` padding cutting
the last group down to one or two bytes. -/
def b64decode : List Char → List Nat
  | c1 :: c2 :: c3 :: c4 :: rest =>
    if c3 = '=' then
      [b64Index c1 * 4 + b64Index c2 / 16]
    else if c4 = '=' then
      [b64Index c1 * 4 + b64Index c2 / 16,
       b64Index c2 % 16 * 16 + b64Index c3 / 4]
    else
      (b64Index c1 * 4 + b64Index c2 / 16) ::
      (b64Index c2 % 16 * 16 + b64Index c3 / 4) ::
      (b64Index c3 % 4 * 64 + b64Index c4) :: b64decode rest
  | _ => []

/-- UTF-8 encoding of one Unicode code point (1 to 4 bytes). -/
def utf8Char (c : Nat) : List Nat :=
  if c < 128 then [c]
  else if c < 2048 then [192 + c / 64, 128 + c % 64]
  else if c < 65536 then [224 + c / 4096, 128 + c / 64 % 64, 128 + c % 64]
  else [240 + c / 262144, 128 + c / 4096 % 64, 128 + c / 64 % 64, 128 + c % 64]

/-- UTF-8 encoding of a string given as its list of Unicode code points. -/
def utf8Encode : List Nat → List Nat
  | [] => []
  | c :: cs => utf8Char c ++ utf8Encode cs

/-- The Basic-authorization value of `getAccessToken`:
`Buffer.from(clientId + ":" + clientSecret).toString("base64")`, with both
credential strings given as code-point lists and `58` the code point of
the `:` separator. -/
def credentials (clientId clientSecret : List Nat) : List Char :=
  b64encode (utf8Encode (clientId ++ 58 :: clientSecret))

/-- Claim C1: on HTTP 401, while the attempt count is strictly below
`maxRetries` the token slot is cleared and the request re-dispatched from
scratch with the attempt count incremented (first conjunct); at the ceiling
the surfaced error is the authentication failure carrying status 401 (second
conjunct); with `maxRetries = 0` a 401 surfaces that error after consuming
exactly one fetch, i.e. zero retries (third conjunct); and a 401 followed by
a 200 returns the 200 body after exactly one retry, with the cache refreshed
by a fresh token-endpoint call in between (fourth conjunct). -/
theorem C1_retry_on_401 :
    (∀ (mr : Nat) (ep mth : String) (d : ReqData) (td : Option TokenData)
        (ts : List TokenResp) (b : Option RespBody) (rest : List FetchOutcome)
        (now : Int) (rc : Nat),
      isTokenValid ⟨td, ts, FetchOutcome.response 401 b :: rest, now⟩ = true →
      rc < mr →
      makeRequest mr ep mth d ⟨td, ts, FetchOutcome.response 401 b :: rest, now⟩ rc
        = makeRequest mr ep mth d ⟨none, ts, rest, now⟩ (rc + 1)) ∧
    (∀ (mr : Nat) (ep mth : String) (d : ReqData) (td : Option TokenData)
        (ts : List TokenResp) (b : Option RespBody) (rest : List FetchOutcome)
        (now : Int) (rc : Nat),
      isTokenValid ⟨td, ts, FetchOutcome.response 401 b :: rest, now⟩ = true →
      ¬ rc < mr →
      makeRequest mr ep mth d ⟨td, ts, FetchOutcome.response 401 b :: rest, now⟩ rc
        = (⟨td, ts, rest, now⟩, .error ⟨"MonCashError",
            jsOr (Option.bind b RespBody.errorMessage) "Request failed with status 401",
            some 401, b⟩)) ∧
    (∀ (ep mth : String) (d : ReqData) (td : Option TokenData)
        (ts : List TokenResp) (b : Option RespBody) (rest : List FetchOutcome)
        (now : Int),
      isTokenValid ⟨td, ts, FetchOutcome.response 401 b :: rest, now⟩ = true →
      makeRequest 0 ep mth d ⟨td, ts, FetchOutcome.response 401 b :: rest, now⟩ 0
        = (⟨td, ts, rest, now⟩, .error ⟨"MonCashError",
            jsOr (Option.bind b RespBody.errorMessage) "Request failed with status 401",
            some 401, b⟩)) ∧
    (∀ (mr : Nat) (ep mth : String) (d : ReqData) (td : Option TokenData)
        (tr : TokenResp) (b1 : Option RespBody) (b2 : RespBody) (now : Int),
      isTokenValid ⟨td, [tr],
        [FetchOutcome.response 401 b1, FetchOutcome.response 200 (some b2)], now⟩ = true →
      respOk tr.status = true →
      0 < mr →
      makeRequest mr ep mth d ⟨td, [tr],
          [FetchOutcome.response 401 b1, FetchOutcome.response 200 (some b2)], now⟩ 0
        = (⟨some ⟨tr.access_token, now + max tr.expires_in 30 * 1000⟩, [], [], now⟩,
            .ok (some b2))) := by
  refine ⟨?step, ?ceiling, ?zero, ?scenario⟩
  case step =>
    intro mr ep mth d td ts b rest now rc hv hr
    rw [makeRequest]
    simp [getAccessToken, hv, respOk, hr]
  case ceiling =>
    intro mr ep mth d td ts b rest now rc hv hr
    rw [makeRequest]
    simp [getAccessToken, hv, respOk, hr]
    congr 1
  case zero =>
    intro ep mth d td ts b rest now hv
    rw [makeRequest]
    simp [getAccessToken, hv, respOk]
    congr 1
  case scenario =>
    intro mr ep mth d td tr b1 b2 now hv htr hmr
    simp only [respOk, Bool.and_eq_true, decide_eq_true_eq] at htr
    rw [makeRequest]
    simp only [getAccessToken, hv, if_pos]
    rw [makeRequest]
    simp [getAccessToken, isTokenValid, acquireToken, respOk, hmr, htr]

/-- Claim C2 counterexample: a dispatch whose fetch is aborted by the timeout,
made while the cached token is expired, surfaces the timeout error but leaves
the Token Cache holding the token freshly acquired before the fetch — not the
state it held before the dispatch, refuting the claimed frame condition. -/
theorem C2_counterexample :
    makeRequest 3 CREATE_PAYMENT "POST" ⟨some 1, some "A", none, none, none⟩
        ⟨some ⟨some "old", 5000⟩, [⟨200, some "new", 3600, none⟩],
          [FetchOutcome.abort], 100000⟩ 0
      = (⟨some ⟨some "new", 3700000⟩, [], [], 100000⟩, .error requestTimeoutErr)
    ∧ (some (⟨some "new", 3700000⟩ : TokenData) ≠ some ⟨some "old", 5000⟩) := by
  constructor
  · rw [makeRequest]
    simp [getAccessToken, isTokenValid, acquireToken, respOk, max_def]
  · decide

/-- Claim C2 (amended): a dispatch whose fetch is aborted by the timeout
surfaces `RequestTimeoutError` with no retry, and the timeout path itself
never touches the token slot: the cache ends exactly as token acquisition
left it — unchanged when a valid token was cached (first conjunct), and
holding the freshly acquired token when acquisition ran (second conjunct). -/
theorem C2_timeout_no_retry_no_invalidation :
    (∀ (mr : Nat) (ep mth : String) (d : ReqData) (td : Option TokenData)
        (ts : List TokenResp) (rest : List FetchOutcome) (now : Int) (rc : Nat),
      isTokenValid ⟨td, ts, FetchOutcome.abort :: rest, now⟩ = true →
      makeRequest mr ep mth d ⟨td, ts, FetchOutcome.abort :: rest, now⟩ rc
        = (⟨td, ts, rest, now⟩, .error requestTimeoutErr)) ∧
    (∀ (mr : Nat) (ep mth : String) (d : ReqData) (td : Option TokenData)
        (tr : TokenResp) (trest : List TokenResp) (rest : List FetchOutcome)
        (now : Int) (rc : Nat),
      isTokenValid ⟨td, tr :: trest, FetchOutcome.abort :: rest, now⟩ = false →
      respOk tr.status = true →
      makeRequest mr ep mth d ⟨td, tr :: trest, FetchOutcome.abort :: rest, now⟩ rc
        = (⟨some ⟨tr.access_token, now + max tr.expires_in 30 * 1000⟩, trest, rest, now⟩,
            .error requestTimeoutErr)) := by
  constructor
  · intro mr ep mth d td ts rest now rc hv
    rw [makeRequest]
    simp [getAccessToken, hv]
  · intro mr ep mth d td tr trest rest now rc hv htr
    rw [makeRequest]
    simp [getAccessToken, hv, acquireToken, htr]

/-- Claim C3: a 404 on the order-lookup endpoint surfaces
`OrderNotFoundError` tagged with exactly the `orderId` from the request
parameters, whatever the response body holds, and a 404 on the
transaction-lookup endpoint surfaces `PaymentNotFoundError` with the
caller's `transactionId`; the last two conjuncts state the same end to end
through `getOrder` and `getTransaction`. -/
theorem C3_notFound_classification :
    (∀ (mr : Nat) (mth : String) (amt : Option Int) (oid : String)
        (tid rcv dsc : Option String) (td : Option TokenData)
        (ts : List TokenResp) (b : Option RespBody) (rest : List FetchOutcome)
        (now : Int) (rc : Nat),
      isTokenValid ⟨td, ts, FetchOutcome.response 404 b :: rest, now⟩ = true →
      makeRequest mr RETRIEVE_ORDER mth ⟨amt, some oid, tid, rcv, dsc⟩
          ⟨td, ts, FetchOutcome.response 404 b :: rest, now⟩ rc
        = (⟨td, ts, rest, now⟩, .error (orderNotFoundErr oid))) ∧
    (∀ (mr : Nat) (mth : String) (amt : Option Int) (tid : String)
        (oid rcv dsc : Option String) (td : Option TokenData)
        (ts : List TokenResp) (b : Option RespBody) (rest : List FetchOutcome)
        (now : Int) (rc : Nat),
      isTokenValid ⟨td, ts, FetchOutcome.response 404 b :: rest, now⟩ = true →
      makeRequest mr RETRIEVE_TRANSACTION mth ⟨amt, oid, some tid, rcv, dsc⟩
          ⟨td, ts, FetchOutcome.response 404 b :: rest, now⟩ rc
        = (⟨td, ts, rest, now⟩, .error (paymentNotFoundErr tid))) ∧
    (∀ (mr : Nat) (oid : String) (td : Option TokenData) (ts : List TokenResp)
        (b : Option RespBody) (rest : List FetchOutcome) (now : Int),
      jsTrim oid ≠ "" →
      isTokenValid ⟨td, ts, FetchOutcome.response 404 b :: rest, now⟩ = true →
      getOrder mr oid ⟨td, ts, FetchOutcome.response 404 b :: rest, now⟩
        = (⟨td, ts, rest, now⟩, .error (orderNotFoundErr oid))) ∧
    (∀ (mr : Nat) (tid : String) (td : Option TokenData) (ts : List TokenResp)
        (b : Option RespBody) (rest : List FetchOutcome) (now : Int),
      jsTrim tid ≠ "" →
      isTokenValid ⟨td, ts, FetchOutcome.response 404 b :: rest, now⟩ = true →
      getTransaction mr tid ⟨td, ts, FetchOutcome.response 404 b :: rest, now⟩
        = (⟨td, ts, rest, now⟩, .error (paymentNotFoundErr tid))) := by
  have horder : ∀ (mr : Nat) (mth : String) (amt : Option Int) (oid : String)
      (tid rcv dsc : Option String) (td : Option TokenData)
      (ts : List TokenResp) (b : Option RespBody) (rest : List FetchOutcome)
      (now : Int) (rc : Nat),
      isTokenValid ⟨td, ts, FetchOutcome.response 404 b :: rest, now⟩ = true →
      makeRequest mr RETRIEVE_ORDER mth ⟨amt, some oid, tid, rcv, dsc⟩
          ⟨td, ts, FetchOutcome.response 404 b :: rest, now⟩ rc
        = (⟨td, ts, rest, now⟩, .error (orderNotFoundErr oid)) := by
    intro mr mth amt oid tid rcv dsc td ts b rest now rc hv
    rw [makeRequest]
    simp [getAccessToken, hv, respOk, castField, RETRIEVE_ORDER, RETRIEVE_TRANSACTION]
  have htrans : ∀ (mr : Nat) (mth : String) (amt : Option Int) (tid : String)
      (oid rcv dsc : Option String) (td : Option TokenData)
      (ts : List TokenResp) (b : Option RespBody) (rest : List FetchOutcome)
      (now : Int) (rc : Nat),
      isTokenValid ⟨td, ts, FetchOutcome.response 404 b :: rest, now⟩ = true →
      makeRequest mr RETRIEVE_TRANSACTION mth ⟨amt, oid, some tid, rcv, dsc⟩
          ⟨td, ts, FetchOutcome.response 404 b :: rest, now⟩ rc
        = (⟨td, ts, rest, now⟩, .error (paymentNotFoundErr tid)) := by
    intro mr mth amt tid oid rcv dsc td ts b rest now rc hv
    rw [makeRequest]
    simp [getAccessToken, hv, respOk, castField, RETRIEVE_ORDER, RETRIEVE_TRANSACTION]
  refine ⟨horder, htrans, ?_, ?_⟩
  · intro mr oid td ts b rest now hoid hv
    rw [getOrder, if_neg hoid]
    exact horder mr "POST" none oid none none none td ts b rest now 0 hv
  · intro mr tid td ts b rest now htid hv
    rw [getTransaction, if_neg htid]
    exact htrans mr "POST" none tid none none none td ts b rest now 0 hv

/-- Claim C9: a 404 on the payment-creation or transfer endpoint is not
classified as not-found: it surfaces as a generic `MonCashError` carrying
status 404, the parsed response body, and the body's own error message when
present (else the synthesized message). -/
theorem C9_404_generic_on_non_lookup :
    (∀ (mr : Nat) (mth : String) (d : ReqData) (td : Option TokenData)
        (ts : List TokenResp) (b : Option RespBody) (rest : List FetchOutcome)
        (now : Int) (rc : Nat),
      isTokenValid ⟨td, ts, FetchOutcome.response 404 b :: rest, now⟩ = true →
      makeRequest mr CREATE_PAYMENT mth d
          ⟨td, ts, FetchOutcome.response 404 b :: rest, now⟩ rc
        = (⟨td, ts, rest, now⟩, .error ⟨"MonCashError",
            jsOr (Option.bind b RespBody.errorMessage) "Request failed with status 404",
            some 404, b⟩)) ∧
    (∀ (mr : Nat) (mth : String) (d : ReqData) (td : Option TokenData)
        (ts : List TokenResp) (b : Option RespBody) (rest : List FetchOutcome)
        (now : Int) (rc : Nat),
      isTokenValid ⟨td, ts, FetchOutcome.response 404 b :: rest, now⟩ = true →
      makeRequest mr TRANSFER mth d
          ⟨td, ts, FetchOutcome.response 404 b :: rest, now⟩ rc
        = (⟨td, ts, rest, now⟩, .error ⟨"MonCashError",
            jsOr (Option.bind b RespBody.errorMessage) "Request failed with status 404",
            some 404, b⟩)) := by
  constructor
  · intro mr mth d td ts b rest now rc hv
    rw [makeRequest]
    simp [getAccessToken, hv, respOk, CREATE_PAYMENT, RETRIEVE_ORDER, RETRIEVE_TRANSACTION]
    congr 1
  · intro mr mth d td ts b rest now rc hv
    rw [makeRequest]
    simp [getAccessToken, hv, respOk, TRANSFER, RETRIEVE_ORDER, RETRIEVE_TRANSACTION]
    congr 1

/-- Claim C4: storing a freshly obtained token records
`expiresAt = now + max(expires_in, 30) * 1000` (first conjunct); the cache
reports the token valid exactly when a token is present and
`now < expiresAt - 10000` (second conjunct); the 10-second safety margin is
strictly smaller than the 30-second minimum lifetime (third conjunct); hence
a freshly acquired token is always reported valid immediately after being
set (fourth conjunct). -/
theorem C4_token_cache_validity :
    (∀ (st : SdkState) (tr : TokenResp) (rest : List TokenResp),
      st.tokenScript = tr :: rest →
      respOk tr.status = true →
      (acquireToken st).1.tokenData
        = some ⟨tr.access_token, st.now + max tr.expires_in 30 * 1000⟩) ∧
    (∀ st : SdkState, isTokenValid st = true ↔
      ∃ td : TokenData, st.tokenData = some td ∧ st.now < td.expiresAt - 10000) ∧
    ((10000 : Int) < 30 * 1000) ∧
    (∀ (st : SdkState) (tr : TokenResp) (rest : List TokenResp),
      st.tokenScript = tr :: rest →
      respOk tr.status = true →
      isTokenValid (acquireToken st).1 = true) := by
  refine ⟨?set, ?valid, by norm_num, ?fresh⟩
  case set =>
    intro st tr rest hts htr
    simp [acquireToken, hts, htr]
  case valid =>
    intro st
    cases h : st.tokenData with
    | none => simp [isTokenValid, h]
    | some td => simp [isTokenValid, h]
  case fresh =>
    intro st tr rest hts htr
    have h30 : (30 : Int) ≤ max tr.expires_in 30 := le_max_right _ _
    simp [acquireToken, hts, htr, isTokenValid]
    omega

/-- Claim C5 counterexample: a token obtained with `expires_in = 5` seconds
is reported VALID by `isTokenValid` immediately after being set, because the
recorded lifetime is floored at 30 seconds — refuting the claim that the
10-second margin makes it invalid. -/
theorem C5_counterexample :
    (acquireToken ⟨none, [⟨200, some "t", 5, none⟩], [], 0⟩).1.tokenData
      = some ⟨some "t", 30000⟩
    ∧ isTokenValid (acquireToken ⟨none, [⟨200, some "t", 5, none⟩], [], 0⟩).1 = true := by
  constructor
  · decide
  · decide

/-- Claim C5 (amended): a token cached with `expires_in = 5` seconds is
reported valid immediately after being set: `Math.max(expires_in, 30)` floors
the lifetime at 30 seconds, which exceeds the 10-second safety margin. -/
theorem C5_short_lifetime_floored_valid :
    ∀ (st : SdkState) (tr : TokenResp) (rest : List TokenResp),
      st.tokenScript = tr :: rest →
      respOk tr.status = true →
      tr.expires_in = 5 →
      (acquireToken st).1.tokenData = some ⟨tr.access_token, st.now + 30000⟩
      ∧ isTokenValid (acquireToken st).1 = true := by
  intro st tr rest hts htr hei
  constructor
  · simp [acquireToken, hts, htr, hei]
  · simp [acquireToken, hts, htr, isTokenValid, hei]
    omega

/-- Claim C7 is violated by the code: a 2xx token-exchange response whose
body carries an empty (first conjunct) or absent (second conjunct)
`access_token` is not rejected — `getAccessToken` caches the unusable token
and returns it as a success instead of failing with an authentication
error. -/
theorem C7_empty_access_token_not_rejected :
    getAccessToken ⟨none, [⟨200, some "", 59, none⟩], [], 0⟩
      = (⟨some ⟨some "", 59000⟩, [], [], 0⟩, .ok (some ""))
    ∧ getAccessToken ⟨none, [⟨200, none, 59, none⟩], [], 0⟩
      = (⟨some ⟨none, 59000⟩, [], [], 0⟩, .ok none) := by
  constructor
  · rfl
  · rfl

/-- Claim C8: every operation method validates its inputs before any network
activity and fails with a `MonCashError` carrying no status code, leaving
the state (and so both network scripts) untouched. The first two conjuncts
are the claim's concrete instances `createPayment(0, "X")` and
`createPayment(10, "")`; the rest cover each validation branch of the four
operation methods. -/
theorem C8_validation_before_network :
    (∀ (mr : Nat) (st : SdkState),
      createPayment mr 0 "X" st
        = (st, .error (validationErr "Amount must be greater than 0"))) ∧
    (∀ (mr : Nat) (st : SdkState),
      createPayment mr 10 "" st
        = (st, .error (validationErr "OrderId is required"))) ∧
    (∀ (mr : Nat) (a : Int) (o : String) (st : SdkState), a ≤ 0 →
      createPayment mr a o st
        = (st, .error (validationErr "Amount must be greater than 0"))) ∧
    (∀ (mr : Nat) (a : Int) (o : String) (st : SdkState), 0 < a → jsTrim o = "" →
      createPayment mr a o st
        = (st, .error (validationErr "OrderId is required"))) ∧
    (∀ (mr : Nat) (t : String) (st : SdkState), jsTrim t = "" →
      getTransaction mr t st
        = (st, .error (validationErr "TransactionId is required"))) ∧
    (∀ (mr : Nat) (o : String) (st : SdkState), jsTrim o = "" →
      getOrder mr o st
        = (st, .error (validationErr "OrderId is required"))) ∧
    (∀ (mr : Nat) (a : Int) (r d : String) (st : SdkState), a ≤ 0 →
      transFer mr a r d st
        = (st, .error (validationErr "Amount must be greater than 0"))) ∧
    (∀ (mr : Nat) (a : Int) (r d : String) (st : SdkState), 0 < a → jsTrim r = "" →
      transFer mr a r d st
        = (st, .error (validationErr "Receiver is required"))) := by
  refine ⟨?_, ?_, ?_, ?_, ?_, ?_, ?_, ?_⟩
  · intro mr st
    simp [createPayment]
  · intro mr st
    simp [createPayment, show jsTrim "" = "" by decide]
  · intro mr a o st ha
    simp [createPayment, ha]
  · intro mr a o st ha ho
    simp [createPayment, ho, show ¬ a ≤ 0 by omega]
  · intro mr t st ht
    simp [getTransaction, ht]
  · intro mr o st ho
    simp [getOrder, ho]
  · intro mr a r d st ha
    simp [transFer, ha]
  · intro mr a r d st ha hr
    simp [transFer, hr, show ¬ a ≤ 0 by omega]

/-- Claim C10: `transFer` validates only the amount (strictly positive) and
the receiver (non-empty after trimming); for any such amount and receiver
the call is dispatched with the caller's description placed verbatim into
the request body — in particular an empty or whitespace-only description
passes validation. -/
theorem C10_transfer_description_unvalidated :
    ∀ (mr : Nat) (a : Int) (r d : String) (st : SdkState),
      0 < a → jsTrim r ≠ "" →
      transFer mr a r d st
        = makeRequest mr TRANSFER "POST" ⟨some a, none, none, some r, some d⟩ st 0 := by
  intro mr a r d st ha hr
  rw [transFer, if_neg (by omega), if_neg hr]

theorem b64Index_sextetChar : ∀ n : Nat, n < 64 → b64Index (sextetChar n) = n := by
  decide

theorem sextetChar_ne_pad : ∀ n : Nat, n < 64 → sextetChar n ≠ '=' := by
  decide

/-- Base64 decoding inverts base64 encoding on any byte list. -/
theorem b64_roundtrip : ∀ l : List Nat, (∀ x ∈ l, x < 256) → b64decode (b64encode l) = l
  | [], _ => rfl
  | [a], h => by
    have ha : a < 256 := h a (by simp)
    rw [b64encode, b64decode, if_pos rfl]
    rw [b64Index_sextetChar _ (by omega), b64Index_sextetChar _ (by omega)]
    simp only [List.cons.injEq, and_true]
    omega
  | [a, b], h => by
    have ha : a < 256 := h a (by simp)
    have hb : b < 256 := h b (by simp)
    rw [b64encode, b64decode,
      if_neg (sextetChar_ne_pad _ (by omega)), if_pos rfl]
    rw [b64Index_sextetChar _ (by omega), b64Index_sextetChar _ (by omega),
      b64Index_sextetChar _ (by omega)]
    simp only [List.cons.injEq, and_true]
    omega
  | a :: b :: c :: rest, h => by
    have ha : a < 256 := h a (by simp)
    have hb : b < 256 := h b (by simp)
    have hc : c < 256 := h c (by simp)
    rw [b64encode, b64decode,
      if_neg (sextetChar_ne_pad _ (by omega)), if_neg (sextetChar_ne_pad _ (by omega))]
    rw [b64Index_sextetChar _ (by omega), b64Index_sextetChar _ (by omega),
      b64Index_sextetChar _ (by omega), b64Index_sextetChar _ (by omega)]
    rw [b64_roundtrip rest (fun x hx => h x (by simp [hx]))]
    simp only [List.cons.injEq, and_true]
    omega

/-- Every byte produced by UTF-8 encoding a valid code point is below 256. -/
theorem utf8Char_lt (c : Nat) (hc : c < 1114112) : ∀ b ∈ utf8Char c, b < 256 := by
  intro b hb
  unfold utf8Char at hb
  split_ifs at hb <;> simp at hb <;> omega

/-- Every byte of the UTF-8 encoding of a valid code-point list is below 256. -/
theorem utf8Encode_lt : ∀ l : List Nat, (∀ c ∈ l, c < 1114112) →
    ∀ b ∈ utf8Encode l, b < 256
  | [], _ => by simp [utf8Encode]
  | c :: cs, h => by
    intro b hb
    rw [utf8Encode] at hb
    rcases List.mem_append.mp hb with h1 | h2
    · exact utf8Char_lt c (h c (by simp)) b h1
    · exact utf8Encode_lt cs (fun x hx => h x (by simp [hx])) b h2

/-- Claim C6: for all client credentials, including non-ASCII ones, the
encoded Basic-authorization value round-trips — base64-decoding it yields
exactly the UTF-8 byte sequence of `clientId + ":" + clientSecret` (strings
given as their Unicode code-point lists). -/
theorem C6_credentials_roundtrip (clientId clientSecret : List Nat)
    (h : ∀ c ∈ clientId ++ 58 :: clientSecret, c < 1114112) :
    b64decode (credentials clientId clientSecret)
      = utf8Encode (clientId ++ 58 :: clientSecret) :=
  b64_roundtrip _ (utf8Encode_lt _ h)

/-- Witness for C6 at a concrete non-ASCII credential pair: `clientId` is
`"M"` and `clientSecret` is `"é€"` (code points 233 and 8364). -/
theorem C6_credentials_roundtrip_witness :
    (∀ c ∈ [77] ++ 58 :: [233, 8364], c < 1114112) ∧
    b64decode (credentials [77] [233, 8364]) = utf8Encode ([77] ++ 58 :: [233, 8364]) :=
  ⟨by decide, C6_credentials_roundtrip [77] [233, 8364] (by decide)⟩

/-- Witness for C1 at concrete inputs: a valid cached token, a scripted 401
(and, for the last conjunct, a scripted fresh token and a scripted 200). -/
theorem C1_retry_on_401_witness :
    (makeRequest 3 CREATE_PAYMENT "POST" ⟨some 1, some "A", none, none, none⟩
        ⟨some ⟨some "tok", 100000⟩, [], [FetchOutcome.response 401 none], 0⟩ 0
      = makeRequest 3 CREATE_PAYMENT "POST" ⟨some 1, some "A", none, none, none⟩
        ⟨none, [], [], 0⟩ 1) ∧
    (makeRequest 3 CREATE_PAYMENT "POST" ⟨some 1, some "A", none, none, none⟩
        ⟨some ⟨some "tok", 100000⟩, [], [FetchOutcome.response 401 none], 0⟩ 3
      = (⟨some ⟨some "tok", 100000⟩, [], [], 0⟩, .error ⟨"MonCashError",
          jsOr (Option.bind none RespBody.errorMessage) "Request failed with status 401",
          some 401, none⟩)) ∧
    (makeRequest 0 CREATE_PAYMENT "POST" ⟨some 1, some "A", none, none, none⟩
        ⟨some ⟨some "tok", 100000⟩, [], [FetchOutcome.response 401 none], 0⟩ 0
      = (⟨some ⟨some "tok", 100000⟩, [], [], 0⟩, .error ⟨"MonCashError",
          jsOr (Option.bind none RespBody.errorMessage) "Request failed with status 401",
          some 401, none⟩)) ∧
    (makeRequest 3 CREATE_PAYMENT "POST" ⟨some 1, some "A", none, none, none⟩
        ⟨some ⟨some "tok", 100000⟩, [⟨200, some "fresh", 59, none⟩],
          [FetchOutcome.response 401 none,
           FetchOutcome.response 200 (some ⟨none, "ok"⟩)], 0⟩ 0
      = (⟨some ⟨some "fresh", 0 + max 59 30 * 1000⟩, [], [], 0⟩,
          .ok (some ⟨none, "ok"⟩))) :=
  ⟨C1_retry_on_401.1 3 CREATE_PAYMENT "POST" _ _ _ _ _ _ _ (by decide) (by decide),
   C1_retry_on_401.2.1 3 CREATE_PAYMENT "POST" _ _ _ _ _ _ _ (by decide) (by decide),
   C1_retry_on_401.2.2.1 CREATE_PAYMENT "POST" _ _ _ _ _ _ (by decide),
   C1_retry_on_401.2.2.2 3 CREATE_PAYMENT "POST" _ _ _ _ _ _ (by decide) (by decide)
     (by decide)⟩

/-- Witness for the amended C2 at concrete inputs: a timed-out fetch with a
valid cached token (first conjunct) and with an empty cache plus a scripted
token acquisition (second conjunct). -/
theorem C2_timeout_no_retry_no_invalidation_witness :
    (makeRequest 3 CREATE_PAYMENT "POST" ⟨some 1, some "A", none, none, none⟩
        ⟨some ⟨some "tok", 100000⟩, [], [FetchOutcome.abort], 0⟩ 0
      = (⟨some ⟨some "tok", 100000⟩, [], [], 0⟩, .error requestTimeoutErr)) ∧
    (makeRequest 3 CREATE_PAYMENT "POST" ⟨some 1, some "A", none, none, none⟩
        ⟨none, [⟨200, some "new", 59, none⟩], [FetchOutcome.abort], 0⟩ 0
      = (⟨some ⟨some "new", 0 + max 59 30 * 1000⟩, [], [], 0⟩,
          .error requestTimeoutErr)) :=
  ⟨C2_timeout_no_retry_no_invalidation.1 3 CREATE_PAYMENT "POST" _ _ _ _ _ _ (by decide),
   C2_timeout_no_retry_no_invalidation.2 3 CREATE_PAYMENT "POST" _ _ _ _ _ _ _
     (by decide) (by decide)⟩

/-- Witness for C3 at concrete inputs: 404 responses carrying a non-empty
body, classified for an order lookup with id `ORD1` and a transaction lookup
with id `TX1`, both directly and through the operation methods. -/
theorem C3_notFound_classification_witness :
    (makeRequest 3 RETRIEVE_ORDER "POST" ⟨none, some "ORD1", none, none, none⟩
        ⟨some ⟨some "tok", 100000⟩, [],
          [FetchOutcome.response 404 (some ⟨some "gateway says no", "body"⟩)], 0⟩ 0
      = (⟨some ⟨some "tok", 100000⟩, [], [], 0⟩,
          .error (orderNotFoundErr "ORD1"))) ∧
    (makeRequest 3 RETRIEVE_TRANSACTION "POST" ⟨none, none, some "TX1", none, none⟩
        ⟨some ⟨some "tok", 100000⟩, [],
          [FetchOutcome.response 404 (some ⟨some "gateway says no", "body"⟩)], 0⟩ 0
      = (⟨some ⟨some "tok", 100000⟩, [], [], 0⟩,
          .error (paymentNotFoundErr "TX1"))) ∧
    (getOrder 3 "ORD1"
        ⟨some ⟨some "tok", 100000⟩, [],
          [FetchOutcome.response 404 (some ⟨some "gateway says no", "body"⟩)], 0⟩
      = (⟨some ⟨some "tok", 100000⟩, [], [], 0⟩,
          .error (orderNotFoundErr "ORD1"))) ∧
    (getTransaction 3 "TX1"
        ⟨some ⟨some "tok", 100000⟩, [],
          [FetchOutcome.response 404 (some ⟨some "gateway says no", "body"⟩)], 0⟩
      = (⟨some ⟨some "tok", 100000⟩, [], [], 0⟩,
          .error (paymentNotFoundErr "TX1"))) :=
  ⟨C3_notFound_classification.1 3 "POST" none "ORD1" none none none _ _ _ _ _ _ (by decide),
   C3_notFound_classification.2.1 3 "POST" none "TX1" none none none _ _ _ _ _ _ (by decide),
   C3_notFound_classification.2.2.1 3 "ORD1" _ _ _ _ _ (by decide) (by decide),
   C3_notFound_classification.2.2.2 3 "TX1" _ _ _ _ _ (by decide) (by decide)⟩

/-- Witness for C4 at a concrete acquisition: a 200 token response with
`expires_in = 59`, plus the validity condition read back on a concrete
cache. -/
theorem C4_token_cache_validity_witness :
    ((acquireToken ⟨none, [⟨200, some "t", 59, none⟩], [], 0⟩).1.tokenData
      = some ⟨some "t", 0 + max 59 30 * 1000⟩) ∧
    (isTokenValid ⟨some ⟨some "t", 30000⟩, [], [], 0⟩ = true ↔
      ∃ td : TokenData, (some ⟨some "t", 30000⟩ : Option TokenData) = some td ∧
        (0 : Int) < td.expiresAt - 10000) ∧
    ((10000 : Int) < 30 * 1000) ∧
    (isTokenValid (acquireToken ⟨none, [⟨200, some "t", 59, none⟩], [], 0⟩).1 = true) :=
  ⟨C4_token_cache_validity.1 ⟨none, [⟨200, some "t", 59, none⟩], [], 0⟩
     ⟨200, some "t", 59, none⟩ [] rfl (by decide),
   C4_token_cache_validity.2.1 ⟨some ⟨some "t", 30000⟩, [], [], 0⟩,
   C4_token_cache_validity.2.2.1,
   C4_token_cache_validity.2.2.2 ⟨none, [⟨200, some "t", 59, none⟩], [], 0⟩
     ⟨200, some "t", 59, none⟩ [] rfl (by decide)⟩

/-- Witness for the amended C5 at the concrete input of the claim:
`expires_in = 5`, set at instant 0. -/
theorem C5_short_lifetime_floored_valid_witness :
    (acquireToken ⟨none, [⟨200, some "t", 5, none⟩], [], 0⟩).1.tokenData
      = some ⟨some "t", 0 + 30000⟩
    ∧ isTokenValid (acquireToken ⟨none, [⟨200, some "t", 5, none⟩], [], 0⟩).1 = true :=
  C5_short_lifetime_floored_valid ⟨none, [⟨200, some "t", 5, none⟩], [], 0⟩
    ⟨200, some "t", 5, none⟩ [] rfl (by decide) rfl

/-- Witness for C8 at the claim's concrete inputs (plus one instance of each
remaining validation branch). -/
theorem C8_validation_before_network_witness :
    (createPayment 3 0 "X" ⟨none, [], [], 0⟩
      = (⟨none, [], [], 0⟩, .error (validationErr "Amount must be greater than 0"))) ∧
    (createPayment 3 10 "" ⟨none, [], [], 0⟩
      = (⟨none, [], [], 0⟩, .error (validationErr "OrderId is required"))) ∧
    (createPayment 3 (-1) "A" ⟨none, [], [], 0⟩
      = (⟨none, [], [], 0⟩, .error (validationErr "Amount must be greater than 0"))) ∧
    (createPayment 3 5 " " ⟨none, [], [], 0⟩
      = (⟨none, [], [], 0⟩, .error (validationErr "OrderId is required"))) ∧
    (getTransaction 3 "" ⟨none, [], [], 0⟩
      = (⟨none, [], [], 0⟩, .error (validationErr "TransactionId is required"))) ∧
    (getOrder 3 " " ⟨none, [], [], 0⟩
      = (⟨none, [], [], 0⟩, .error (validationErr "OrderId is required"))) ∧
    (transFer 3 0 "R" "D" ⟨none, [], [], 0⟩
      = (⟨none, [], [], 0⟩, .error (validationErr "Amount must be greater than 0"))) ∧
    (transFer 3 5 "" "D" ⟨none, [], [], 0⟩
      = (⟨none, [], [], 0⟩, .error (validationErr "Receiver is required"))) :=
  ⟨C8_validation_before_network.1 3 _,
   C8_validation_before_network.2.1 3 _,
   C8_validation_before_network.2.2.1 3 (-1) "A" _ (by decide),
   C8_validation_before_network.2.2.2.1 3 5 " " _ (by decide) (by decide),
   C8_validation_before_network.2.2.2.2.1 3 "" _ (by decide),
   C8_validation_before_network.2.2.2.2.2.1 3 " " _ (by decide),
   C8_validation_before_network.2.2.2.2.2.2.1 3 0 "R" "D" _ (by decide),
   C8_validation_before_network.2.2.2.2.2.2.2 3 5 "" "D" _ (by decide) (by decide)⟩

/-- Witness for C9 at a concrete input: a 404 with a body carrying its own
error message, on the payment-creation and transfer endpoints. -/
theorem C9_404_generic_on_non_lookup_witness :
    (makeRequest 3 CREATE_PAYMENT "POST" ⟨some 1, some "A", none, none, none⟩
        ⟨some ⟨some "tok", 100000⟩, [],
          [FetchOutcome.response 404 (some ⟨some "no such route", "raw"⟩)], 0⟩ 0
      = (⟨some ⟨some "tok", 100000⟩, [], [], 0⟩, .error ⟨"MonCashError",
          jsOr (Option.bind (some ⟨some "no such route", "raw"⟩) RespBody.errorMessage)
            "Request failed with status 404",
          some 404, some ⟨some "no such route", "raw"⟩⟩)) ∧
    (makeRequest 3 TRANSFER "POST" ⟨some 1, none, none, some "R", some "D"⟩
        ⟨some ⟨some "tok", 100000⟩, [],
          [FetchOutcome.response 404 (some ⟨some "no such route", "raw"⟩)], 0⟩ 0
      = (⟨some ⟨some "tok", 100000⟩, [], [], 0⟩, .error ⟨"MonCashError",
          jsOr (Option.bind (some ⟨some "no such route", "raw"⟩) RespBody.errorMessage)
            "Request failed with status 404",
          some 404, some ⟨some "no such route", "raw"⟩⟩)) :=
  ⟨C9_404_generic_on_non_lookup.1 3 "POST" _ _ _ _ _ _ _ (by decide),
   C9_404_generic_on_non_lookup.2 3 "POST" _ _ _ _ _ _ _ (by decide)⟩

/-- Witness for C10 at a concrete input: a transfer with an empty
description passes validation and is dispatched with that description. -/
theorem C10_transfer_description_unvalidated_witness :
    transFer 3 1 "R" "" ⟨none, [], [], 0⟩
      = makeRequest 3 TRANSFER "POST" ⟨some 1, none, none, some "R", some ""⟩
          ⟨none, [], [], 0⟩ 0 :=
  C10_transfer_description_unvalidated 3 1 "R" "" _ (by decide) (by decide)

end Moncash
